import Mathlib

/-!
Verification of `zerver/lib/drafts.py`: server-side validation and CRUD
logic for message drafts.  The Python module is embedded shallowly:

* the draft payload (`draft_dict`) becomes the structure `DraftDict`;
* external collaborators (`normalize_body`, `timestamp_to_datetime`,
  `access_stream_by_id`, and the private-recipient resolution pipeline)
  live outside this repository and are abstracted as the fields of `Env`;
* Python `round(x, 6)` (round-half-to-even) is modelled exactly on ℚ by
  `round6`;
* the persistence layer becomes an explicit `DB` value threaded through
  the mutation operations, and event emission becomes the `List Event`
  those operations return; fallible code returns `Except DraftError _`,
  and an `Except.error` result means no database change and no events.
-/

deriving instance DecidableEq for Except

attribute [local semireducible] Rat.mul Rat.add Rat.inv Rat.sub

/-- The error kinds raised by the drafts module and its collaborators.
`invalidTimestamp`, `invalidTopic`, `invalidRecipientCount` are the
`JsonableError`s raised directly in `further_validated_draft_dict`;
`streamNotFound` / `permissionDenied` come from `access_stream_by_id`;
`userNotFound` from `get_user_profiles_by_ids`; `badAddressing` is the
`JsonableError` wrapping a `ValidationError` message from
`recipient_for_user_profiles`; `draftNotFound` is the
`ResourceNotFoundError` of edit/delete; `syncDisabled` is raised by the
`draft_endpoint` guard. -/
inductive DraftError where
  | invalidTimestamp
  | invalidTopic
  | invalidRecipientCount
  | streamNotFound
  | permissionDenied
  | userNotFound
  | badAddressing (msg : String)
  | draftNotFound
  | syncDisabled
deriving DecidableEq, Repr

/-- A draft dict that already passed the syntactic `draft_dict_validator`:
`type` is one of `""`, `"private"`, `"stream"`; `to` is a list of integer
ids; `topic` and `content` are strings; `timestamp` is an optional Unix
time (int or float, modelled as ℚ). -/
structure DraftDict where
  type_ : String
  to_ : List Int
  topic : String
  content : String
  timestamp : Option ℚ
deriving DecidableEq, Repr

/-- The result of `further_validated_draft_dict`: the four fields used to
build a `Draft` row.  `last_edit_time` is the datetime produced by the
collaborator `timestamp_to_datetime` (kept as ℚ here). -/
structure ValidatedDraft where
  recipient_id : Option Int
  topic : String
  content : String
  last_edit_time : ℚ
deriving DecidableEq, Repr

/-- Round-half-to-even to the nearest integer, the semantics of Python's
built-in `round` on exact values. -/
def roundHalfEven (q : ℚ) : ℤ :=
  let f := ⌊q⌋
  let r := q - f
  if r < 1/2 then f
  else if 1/2 < r then f + 1
  else if f % 2 = 0 then f else f + 1

/-- Python's `round(t, 6)`: round to 6 decimal places of precision,
half-to-even. -/
def round6 (t : ℚ) : ℚ := (roundHalfEven (t * 1000000) : ℚ) / 1000000

/-- Modelled from the spec: `truncate_topic` (from `zerver.lib.message`,
not part of this repository slice) truncates the raw topic to the
platform's maximum topic length. -/
def truncate_topic (s : String) : String := String.mk (s.data.take 60)

/-- Whether a string contains a null byte (`"\0" in topic` in the
source). -/
def hasNullByte (s : String) : Bool := s.data.contains (Char.ofNat 0)

/-- The external collaborators of `further_validated_draft_dict`, already
scoped to the acting user and their realm.  `access_stream_by_id` returns
the accessed stream's `recipient_id`; `private_recipient` is the
composite of `get_user_profiles_by_ids` followed by
`recipient_for_user_profiles` (whose `ValidationError` the source rewraps
as a `JsonableError`, modelled by `badAddressing`). -/
structure Env where
  normalize_body : String → String
  timestamp_to_datetime : ℚ → ℚ
  access_stream_by_id : Int → Except DraftError Int
  private_recipient : List Int → Except DraftError Int

/-- Well-formedness of the collaborator environment: the stream-access
collaborator only fails with `streamNotFound` or `permissionDenied`, and
the private-recipient pipeline only fails with `userNotFound` or
`badAddressing`, matching §6 of the module's interface contracts. -/
def Env.WF (env : Env) : Prop :=
  (∀ sid e, env.access_stream_by_id sid = Except.error e →
    e = DraftError.streamNotFound ∨ e = DraftError.permissionDenied) ∧
  (∀ ids e, env.private_recipient ids = Except.error e →
    e = DraftError.userNotFound ∨ ∃ msg, e = DraftError.badAddressing msg)

/-- Shallow embedding of `further_validated_draft_dict(draft_dict,
user_profile)`.  `now` is the wall clock (`time.time()`), used only when
the dict carries no `timestamp` key.  Mirrors the source line by line:
normalize content; default and round the timestamp, rejecting a negative
result; then branch on `type`: `"stream"` truncates the topic, rejects
null bytes, requires exactly one stream id and resolves it; `"private"`
with non-empty `to` resolves the recipient group; otherwise `topic` stays
`""` and `recipient_id` stays `None`. -/
def further_validated_draft_dict (env : Env) (now : ℚ) (d : DraftDict) :
    Except DraftError ValidatedDraft :=
  let content := env.normalize_body d.content
  let timestamp := round6 (d.timestamp.getD now)
  if timestamp < 0 then
    Except.error DraftError.invalidTimestamp
  else
    let last_edit_time := env.timestamp_to_datetime timestamp
    if d.type_ = "stream" then
      let topic := truncate_topic d.topic
      if hasNullByte topic then
        Except.error DraftError.invalidTopic
      else if d.to_.length ≠ 1 then
        Except.error DraftError.invalidRecipientCount
      else
        match env.access_stream_by_id d.to_.headI with
        | Except.error e => Except.error e
        | Except.ok rid =>
            Except.ok ⟨some rid, topic, content, last_edit_time⟩
    else if d.type_ = "private" ∧ d.to_ ≠ [] then
      match env.private_recipient d.to_ with
      | Except.error e => Except.error e
      | Except.ok rid => Except.ok ⟨some rid, "", content, last_edit_time⟩
    else
      Except.ok ⟨none, "", content, last_edit_time⟩

/-- The acting user as seen by the `draft_endpoint` guard. -/
structure UserProfile where
  id : Int
  enable_drafts_synchronization : Bool
deriving DecidableEq, Repr

/-- Shallow embedding of the `draft_endpoint` decorator: if the acting
user has disabled draft synchronization, fail with a permission-style
error before the wrapped view runs; otherwise delegate with the original
arguments and return the result unchanged. -/
def draft_endpoint {α β : Type} (view_func : UserProfile → α → Except DraftError β)
    (user_profile : UserProfile) (a : α) : Except DraftError β :=
  if user_profile.enable_drafts_synchronization then view_func user_profile a
  else Except.error DraftError.syncDisabled

/-- A persisted `Draft` row. -/
structure Draft where
  id : Int
  user_profile_id : Int
  recipient_id : Option Int
  topic : String
  content : String
  last_edit_time : ℚ
deriving DecidableEq, Repr

/-- The drafts table: the rows plus the id the store will assign next. -/
structure DB where
  drafts : List Draft
  next_id : Int
deriving DecidableEq, Repr

/-- The events `send_event` publishes to the acting user's sessions:
`drafts/add` with the full created rows, `drafts/update` with the full
updated row, `drafts/remove` with just the id. -/
inductive Event where
  | add (drafts : List Draft)
  | update (draft : Draft)
  | remove (draft_id : Int)
deriving DecidableEq, Repr

/-- `Draft.objects.bulk_create`: one grouped insert assigning consecutive
ids, returning the updated table and the created rows in order. -/
def bulk_create (db : DB) (u : Int) (vs : List ValidatedDraft) : DB × List Draft :=
  let created := vs.enum.map fun p =>
    ⟨db.next_id + (p.1 : Int), u, p.2.recipient_id, p.2.topic, p.2.content,
      p.2.last_edit_time⟩
  (⟨db.drafts ++ created, db.next_id + (vs.length : Int)⟩, created)

/-- The validation loop of `do_create_drafts`: run
`further_validated_draft_dict` over the dicts in order, stopping at the
first error. -/
def validateAll (env : Env) (now : ℚ) : List DraftDict → Except DraftError (List ValidatedDraft)
  | [] => Except.ok []
  | d :: rest =>
    match further_validated_draft_dict env now d with
    | Except.error e => Except.error e
    | Except.ok v =>
      match validateAll env now rest with
      | Except.error e => Except.error e
      | Except.ok vs => Except.ok (v :: vs)

/-- Shallow embedding of `do_create_drafts`: validate every dict (first
error aborts the whole batch, before any persistence), then one grouped
insert, then a single `drafts/add` event carrying the created rows in
creation order; returns the created rows.  An `Except.error` result means
nothing was persisted and no event was emitted. -/
def do_create_drafts (env : Env) (now : ℚ) (u : Int) (draft_dicts : List DraftDict)
    (db : DB) : Except DraftError (DB × List Event × List Draft) :=
  match validateAll env now draft_dicts with
  | Except.error e => Except.error e
  | Except.ok vs =>
    let r := bulk_create db u vs
    Except.ok (r.1, [Event.add r.2], r.2)

/-- `Draft.objects.get(id=draft_id, user_profile=user_profile)`: the
ownership-scoped lookup used by edit and delete. -/
def lookupDraft (db : DB) (draft_id : Int) (u : Int) : Option Draft :=
  db.drafts.find? fun r => r.id == draft_id && r.user_profile_id == u

/-- `draft_object.save()`: replace the row with the same primary key. -/
def saveDraft (db : DB) (dr : Draft) : DB :=
  ⟨db.drafts.map fun r => if r.id == dr.id then dr else r, db.next_id⟩

/-- Shallow embedding of `do_edit_draft`: ownership-scoped lookup (fail
`draftNotFound` if absent or owned by someone else), then semantic
validation, then overwrite content/topic/recipient_id/last_edit_time in
place, save, and emit a `drafts/update` event with the full updated row.
An `Except.error` result means no row changed and no event was
emitted. -/
def do_edit_draft (env : Env) (now : ℚ) (draft_id : Int) (d : DraftDict) (u : Int)
    (db : DB) : Except DraftError (DB × List Event) :=
  match lookupDraft db draft_id u with
  | none => Except.error DraftError.draftNotFound
  | some dr =>
    match further_validated_draft_dict env now d with
    | Except.error e => Except.error e
    | Except.ok v =>
      let dr' : Draft :=
        ⟨dr.id, dr.user_profile_id, v.recipient_id, v.topic, v.content,
          v.last_edit_time⟩
      Except.ok (saveDraft db dr', [Event.update dr'])

/-- Shallow embedding of `do_delete_draft`: ownership-scoped lookup (fail
`draftNotFound` if absent or owned by someone else), delete the row, emit
a `drafts/remove` event carrying only the id. -/
def do_delete_draft (db : DB) (draft_id : Int) (u : Int) :
    Except DraftError (DB × List Event) :=
  match lookupDraft db draft_id u with
  | none => Except.error DraftError.draftNotFound
  | some dr =>
    Except.ok (⟨db.drafts.filter fun r => !(r.id == dr.id), db.next_id⟩,
      [Event.remove dr.id])

/-- A concrete collaborator environment for witnesses and
counterexamples: stream 42 is accessible with recipient id 7, every other
stream id is unknown; private recipient resolution always reports a bad
address. -/
def env2 : Env where
  normalize_body := id
  timestamp_to_datetime := id
  access_stream_by_id := fun sid =>
    if sid == 42 then Except.ok 7 else Except.error DraftError.streamNotFound
  private_recipient := fun _ => Except.error (DraftError.badAddressing "x")

theorem env2_wf : Env.WF env2 := by
  constructor
  · intro sid e h
    simp only [env2] at h
    split at h
    · exact absurd h (by simp)
    · exact Or.inl (Except.error.inj h).symm
  · intro ids e h
    exact Or.inr ⟨"x", (Except.error.inj h).symm⟩

/-- Unfolding lemma: a negative rounded timestamp fails immediately. -/
theorem further_neg_timestamp (env : Env) (now : ℚ) (d : DraftDict)
    (h : round6 (d.timestamp.getD now) < 0) :
    further_validated_draft_dict env now d = Except.error DraftError.invalidTimestamp := by
  simp only [further_validated_draft_dict, if_pos h]

/-- Unfolding lemma: the `"stream"` branch once the timestamp check
passed. -/
theorem further_stream (env : Env) (now : ℚ) (d : DraftDict)
    (h : ¬ round6 (d.timestamp.getD now) < 0) (h2 : d.type_ = "stream") :
    further_validated_draft_dict env now d =
      (if hasNullByte (truncate_topic d.topic) then Except.error DraftError.invalidTopic
       else if d.to_.length ≠ 1 then Except.error DraftError.invalidRecipientCount
       else
         match env.access_stream_by_id d.to_.headI with
         | Except.error e => Except.error e
         | Except.ok rid =>
             Except.ok ⟨some rid, truncate_topic d.topic, env.normalize_body d.content,
               env.timestamp_to_datetime (round6 (d.timestamp.getD now))⟩) := by
  simp only [further_validated_draft_dict, if_neg h, if_pos h2]

/-- Unfolding lemma: the `"private"`-with-recipients branch once the
timestamp check passed. -/
theorem further_private (env : Env) (now : ℚ) (d : DraftDict)
    (h : ¬ round6 (d.timestamp.getD now) < 0) (h2 : d.type_ ≠ "stream")
    (h3 : d.type_ = "private" ∧ d.to_ ≠ []) :
    further_validated_draft_dict env now d =
      (match env.private_recipient d.to_ with
       | Except.error e => Except.error e
       | Except.ok rid =>
           Except.ok ⟨some rid, "", env.normalize_body d.content,
             env.timestamp_to_datetime (round6 (d.timestamp.getD now))⟩) := by
  simp only [further_validated_draft_dict, if_neg h, if_neg h2, if_pos h3]

/-- Unfolding lemma: the fall-through branch (private with empty `to`, or
the empty-string type) once the timestamp check passed. -/
theorem further_other (env : Env) (now : ℚ) (d : DraftDict)
    (h : ¬ round6 (d.timestamp.getD now) < 0) (h2 : d.type_ ≠ "stream")
    (h3 : ¬ (d.type_ = "private" ∧ d.to_ ≠ [])) :
    further_validated_draft_dict env now d =
      Except.ok ⟨none, "", env.normalize_body d.content,
        env.timestamp_to_datetime (round6 (d.timestamp.getD now))⟩ := by
  simp only [further_validated_draft_dict, if_neg h, if_neg h2, if_neg h3]

theorem roundHalfEven_nonneg (q : ℚ) (hq : 0 ≤ q) : 0 ≤ roundHalfEven q := by
  have hf : (0:ℤ) ≤ ⌊q⌋ := Int.floor_nonneg.2 hq
  simp only [roundHalfEven]
  split_ifs <;> omega

theorem round6_nonneg (t : ℚ) (ht : 0 ≤ t) : 0 ≤ round6 t := by
  unfold round6
  apply div_nonneg _ (by norm_num)
  exact_mod_cast roundHalfEven_nonneg _ (by positivity)

/-- Under a well-formed environment, any error of
`further_validated_draft_dict` is one of its own validation errors or a
collaborator error: never `draftNotFound` or `syncDisabled`. -/
theorem further_error_kinds (env : Env) (now : ℚ) (d : DraftDict) (e : DraftError)
    (hw : Env.WF env) (h : further_validated_draft_dict env now d = Except.error e) :
    e ≠ DraftError.draftNotFound ∧ e ≠ DraftError.syncDisabled := by
  by_cases h1 : round6 (d.timestamp.getD now) < 0
  · rw [further_neg_timestamp env now d h1] at h
    cases h
    exact ⟨by simp, by simp⟩
  · by_cases h2 : d.type_ = "stream"
    · rw [further_stream env now d h1 h2] at h
      split_ifs at h with h3 h4
      · cases h; exact ⟨by simp, by simp⟩
      · cases h; exact ⟨by simp, by simp⟩
      · rcases hacc : env.access_stream_by_id d.to_.headI with e0 | rid <;> rw [hacc] at h
        · cases h
          rcases hw.1 _ _ hacc with h5 | h5 <;> subst h5 <;> exact ⟨by simp, by simp⟩
        · cases h
    · by_cases h3 : d.type_ = "private" ∧ d.to_ ≠ []
      · rw [further_private env now d h1 h2 h3] at h
        rcases hpr : env.private_recipient d.to_ with e0 | rid <;> rw [hpr] at h
        · cases h
          rcases hw.2 _ _ hpr with h5 | ⟨msg, h5⟩ <;> subst h5 <;> exact ⟨by simp, by simp⟩
        · cases h
      · rw [further_other env now d h1 h2 h3] at h
        cases h

/-- Inversion for successful results of `further_validated_draft_dict`:
the rounded timestamp is non-negative, content and `last_edit_time` come
from the collaborators, and the branch taken is determined by `type` and
`to`, fixing `topic` and `recipient_id` as the source does. -/
theorem further_ok_inv (env : Env) (now : ℚ) (d : DraftDict) (r : ValidatedDraft)
    (h : further_validated_draft_dict env now d = Except.ok r) :
    ¬ round6 (d.timestamp.getD now) < 0 ∧
    r.content = env.normalize_body d.content ∧
    r.last_edit_time = env.timestamp_to_datetime (round6 (d.timestamp.getD now)) ∧
    ((d.type_ = "stream" ∧ hasNullByte (truncate_topic d.topic) = false ∧
        d.to_.length = 1 ∧ r.topic = truncate_topic d.topic ∧
        env.access_stream_by_id d.to_.headI = Except.ok (r.recipient_id.getD 0) ∧
        r.recipient_id.isSome = true) ∨
     (d.type_ ≠ "stream" ∧ d.type_ = "private" ∧ d.to_ ≠ [] ∧ r.topic = "" ∧
        env.private_recipient d.to_ = Except.ok (r.recipient_id.getD 0) ∧
        r.recipient_id.isSome = true) ∨
     (d.type_ ≠ "stream" ∧ ¬ (d.type_ = "private" ∧ d.to_ ≠ []) ∧ r.topic = "" ∧
        r.recipient_id = none)) := by
  by_cases h1 : round6 (d.timestamp.getD now) < 0
  · rw [further_neg_timestamp env now d h1] at h; simp at h
  · refine ⟨h1, ?_⟩
    by_cases h2 : d.type_ = "stream"
    · rw [further_stream env now d h1 h2] at h
      by_cases h3 : hasNullByte (truncate_topic d.topic)
      · rw [if_pos h3] at h; simp at h
      · rw [if_neg h3] at h
        by_cases h4 : d.to_.length ≠ 1
        · rw [if_pos h4] at h; simp at h
        · rw [if_neg h4] at h
          rcases hacc : env.access_stream_by_id d.to_.headI with e0 | rid <;>
            simp only [hacc] at h
          · simp at h
          · simp only [Except.ok.injEq] at h
            subst h
            refine ⟨rfl, rfl, Or.inl ⟨h2, by simpa using h3, by omega, rfl, ?_, rfl⟩⟩
            simp only [Option.getD_some]
    · by_cases h3 : d.type_ = "private" ∧ d.to_ ≠ []
      · rw [further_private env now d h1 h2 h3] at h
        rcases hpr : env.private_recipient d.to_ with e0 | rid <;>
          simp only [hpr] at h
        · simp at h
        · simp only [Except.ok.injEq] at h
          subst h
          refine ⟨rfl, rfl, Or.inr (Or.inl ⟨h2, h3.1, h3.2, rfl, ?_, rfl⟩)⟩
          simp only [Option.getD_some]
      · rw [further_other env now d h1 h2 h3] at h
        simp only [Except.ok.injEq] at h
        subst h
        exact ⟨rfl, rfl, Or.inr (Or.inr ⟨h2, h3, rfl, rfl⟩)⟩

/-- The possible errors of `further_validated_draft_dict` once the
timestamp check has passed: under a well-formed environment, never
`invalidTimestamp`. -/
theorem further_error_ne_invalidTimestamp (env : Env) (now : ℚ) (d : DraftDict)
    (e : DraftError) (hw : Env.WF env)
    (h1 : ¬ round6 (d.timestamp.getD now) < 0)
    (h : further_validated_draft_dict env now d = Except.error e) :
    e ≠ DraftError.invalidTimestamp := by
  by_cases h2 : d.type_ = "stream"
  · rw [further_stream env now d h1 h2] at h
    by_cases h3 : hasNullByte (truncate_topic d.topic)
    · rw [if_pos h3] at h
      simp only [Except.error.injEq] at h
      subst h; simp
    · rw [if_neg h3] at h
      by_cases h4 : d.to_.length ≠ 1
      · rw [if_pos h4] at h
        simp only [Except.error.injEq] at h
        subst h; simp
      · rw [if_neg h4] at h
        rcases hacc : env.access_stream_by_id d.to_.headI with e0 | rid <;>
          simp only [hacc] at h
        · simp only [Except.error.injEq] at h
          subst h
          rcases hw.1 _ _ hacc with h5 | h5 <;> simp [h5]
        · simp at h
  · by_cases h3 : d.type_ = "private" ∧ d.to_ ≠ []
    · rw [further_private env now d h1 h2 h3] at h
      rcases hpr : env.private_recipient d.to_ with e0 | rid <;>
        simp only [hpr] at h
      · simp only [Except.error.injEq] at h
        subst h
        rcases hw.2 _ _ hpr with h5 | ⟨msg, h5⟩ <;> simp [h5]
      · simp at h
    · rw [further_other env now d h1 h2 h3] at h
      simp at h

/-- C1 (counterexample): the timestamp `-1/10000000` is negative, yet
`further_validated_draft_dict` does not fail with `InvalidTimestamp`,
because the source rounds to 6 decimal places *before* the negativity
check and the rounded value is 0. -/
theorem c1_counterexample :
    (-(1:ℚ)/10000000 < 0) ∧
    further_validated_draft_dict env2 0 ⟨"", [], "", "hi", some (-(1:ℚ)/10000000)⟩ ≠
      Except.error DraftError.invalidTimestamp := by
  constructor <;> decide

/-- C1 (amended): for a draft dict carrying an explicit timestamp `t`,
`further_validated_draft_dict` fails with `InvalidTimestamp` iff `t`
*rounded to 6 decimal places* is negative (so every `t ≥ 0` passes this
step), and on success `last_edit_time` is the deterministic conversion of
the rounded `t`. -/
theorem c1_timestamp (env : Env) (now : ℚ) (d : DraftDict) (t : ℚ)
    (hw : Env.WF env) (h : d.timestamp = some t) :
    (further_validated_draft_dict env now d = Except.error DraftError.invalidTimestamp ↔
      round6 t < 0) ∧
    (0 ≤ t → ¬ round6 t < 0) ∧
    (∀ r, further_validated_draft_dict env now d = Except.ok r →
      r.last_edit_time = env.timestamp_to_datetime (round6 t)) := by
  have hget : d.timestamp.getD now = t := by rw [h]; rfl
  refine ⟨⟨fun hf => ?_, fun hneg => ?_⟩, fun ht => not_lt.2 (round6_nonneg t ht), ?_⟩
  · by_contra hneg
    rw [← hget] at hneg
    exact further_error_ne_invalidTimestamp env now d _ hw hneg hf rfl
  · rw [← hget] at hneg
    exact further_neg_timestamp env now d hneg
  · intro r hr
    rw [← hget]
    exact (further_ok_inv env now d r hr).2.2.1

/-- C1 (witness): an explicit timestamp of `-1` is rejected with
`InvalidTimestamp`. -/
theorem c1_witness :
    further_validated_draft_dict env2 0 ⟨"", [], "", "hi", some (-1)⟩ =
      Except.error DraftError.invalidTimestamp :=
  (c1_timestamp env2 0 ⟨"", [], "", "hi", some (-1)⟩ (-1) env2_wf rfl).1.mpr (by decide)

/-- C2 (counterexample): a syntactically valid stream draft whose single
stream id (42) is accessible, with raw topic `""`, succeeds — and the
returned topic is the *empty* string, refuting the claim that the topic
of every valid stream draft is non-empty. -/
theorem c2_counterexample :
    further_validated_draft_dict env2 0 ⟨"stream", [42], "", "hi", some 5⟩ =
      Except.ok ⟨some 7, "", "hi", 5⟩ := by
  decide

/-- C2 (amended): for a stream-type dict whose rounded timestamp is
non-negative and whose single stream id is accessible,
`further_validated_draft_dict` returns `recipient_id` equal to the
accessed stream's recipient identifier and `topic` equal to the raw topic
truncated to the maximum topic length — null-byte-free but possibly empty
— and fails with `InvalidTopic` exactly when the truncated topic contains
a null byte. -/
theorem c2_stream_resolution (env : Env) (now : ℚ) (d : DraftDict) (sid rid : Int)
    (htype : d.type_ = "stream")
    (hts : ¬ round6 (d.timestamp.getD now) < 0)
    (hto : d.to_ = [sid])
    (hacc : env.access_stream_by_id sid = Except.ok rid) :
    (hasNullByte (truncate_topic d.topic) = false →
      further_validated_draft_dict env now d =
        Except.ok ⟨some rid, truncate_topic d.topic, env.normalize_body d.content,
          env.timestamp_to_datetime (round6 (d.timestamp.getD now))⟩) ∧
    (hasNullByte (truncate_topic d.topic) = true →
      further_validated_draft_dict env now d = Except.error DraftError.invalidTopic) := by
  rw [further_stream env now d hts htype]
  constructor
  · intro hnull
    rw [if_neg (by simp [hnull]), if_neg (by simp [hto]), hto]
    simp only [List.headI, hacc]
  · intro hnull
    rw [if_pos hnull]

/-- C2 (witness): the spec's scenario — `{type:"stream", to:[42],
topic:"plans", content:"hi"}` with stream 42 accessible and recipient id
7 — yields one validated draft with `recipient_id` 7 and topic
`"plans"`. -/
theorem c2_witness :
    further_validated_draft_dict env2 0 ⟨"stream", [42], "plans", "hi", some 5⟩ =
      Except.ok ⟨some 7, "plans", "hi", 5⟩ := by
  have h := (c2_stream_resolution env2 0 ⟨"stream", [42], "plans", "hi", some 5⟩ 42 7
    rfl (by decide) rfl rfl).1 (by decide)
  rw [h]
  decide

/-- C5 (counterexample): a stream dict whose truncated topic passes the
null-byte check and whose `to` has two entries is claimed to fail with
`InvalidRecipientCount`; with a negative timestamp it fails with
`InvalidTimestamp` instead, because the timestamp check runs first. -/
theorem c5_counterexample :
    hasNullByte (truncate_topic "x") = false ∧
    further_validated_draft_dict env2 0 ⟨"stream", [42, 43], "x", "hi", some (-1)⟩ =
      Except.error DraftError.invalidTimestamp ∧
    further_validated_draft_dict env2 0 ⟨"stream", [42, 43], "x", "hi", some (-1)⟩ ≠
      Except.error DraftError.invalidRecipientCount := by
  refine ⟨by decide, by decide, by decide⟩

/-- C5 (amended): for a stream-type dict whose rounded timestamp is
non-negative and whose truncated topic passes the null-byte check,
`further_validated_draft_dict` fails with `InvalidRecipientCount` iff
`to` does not contain exactly one integer; with exactly one it proceeds
to stream resolution, whose errors are passed through unchanged. -/
theorem c5_recipient_count (env : Env) (now : ℚ) (d : DraftDict)
    (hw : Env.WF env)
    (htype : d.type_ = "stream")
    (hts : ¬ round6 (d.timestamp.getD now) < 0)
    (hnull : hasNullByte (truncate_topic d.topic) = false) :
    (further_validated_draft_dict env now d =
        Except.error DraftError.invalidRecipientCount ↔ d.to_.length ≠ 1) ∧
    (∀ sid e, d.to_ = [sid] → env.access_stream_by_id sid = Except.error e →
      further_validated_draft_dict env now d = Except.error e) := by
  rw [further_stream env now d hts htype, if_neg (by simp [hnull])]
  constructor
  · constructor
    · intro hf
      by_contra hlen
      rw [if_neg (by simp [hlen])] at hf
      rcases hacc : env.access_stream_by_id d.to_.headI with e0 | rid <;>
        simp only [hacc] at hf
      · simp only [Except.error.injEq] at hf
        rcases hw.1 _ _ hacc with h5 | h5 <;> rw [h5] at hf <;> cases hf
      · cases hf
    · intro hlen
      rw [if_pos hlen]
  · intro sid e hto hacc
    rw [if_neg (by simp [hto]), hto]
    simp only [List.headI, hacc]

/-- C5 (witness): `{type:"stream", to:[42,43]}` with a valid timestamp
fails with `InvalidRecipientCount`. -/
theorem c5_witness :
    further_validated_draft_dict env2 0 ⟨"stream", [42, 43], "plans", "hi", some 5⟩ =
      Except.error DraftError.invalidRecipientCount :=
  (c5_recipient_count env2 0 ⟨"stream", [42, 43], "plans", "hi", some 5⟩ env2_wf
    rfl (by decide) (by decide)).1.mpr (by decide)

/-- C8: with an explicit timestamp, `further_validated_draft_dict` does
not read the wall clock: two calls with the same dict, the same
collaborators and different wall-clock values give identical results
(including identical failures).  Without a timestamp the results can
genuinely differ between wall-clock values, as the final conjunct
witnesses. -/
theorem c8_determinism (env : Env) (now1 now2 : ℚ) (d : DraftDict) (t : ℚ)
    (h : d.timestamp = some t) :
    further_validated_draft_dict env now1 d = further_validated_draft_dict env now2 d ∧
    (∃ (e : Env) (n1 n2 : ℚ) (d0 : DraftDict), d0.timestamp = none ∧
      further_validated_draft_dict e n1 d0 ≠ further_validated_draft_dict e n2 d0) := by
  constructor
  · simp only [further_validated_draft_dict, h, Option.getD_some]
  · exact ⟨env2, 0, -1, ⟨"", [], "", "hi", none⟩, rfl, by decide⟩

/-- C8 (witness): the same stream draft with explicit timestamp 5
validates identically under wall clocks 0 and 99. -/
theorem c8_witness :
    further_validated_draft_dict env2 0 ⟨"stream", [42], "plans", "hi", some 5⟩ =
      further_validated_draft_dict env2 99 ⟨"stream", [42], "plans", "hi", some 5⟩ :=
  (c8_determinism env2 0 99 ⟨"stream", [42], "plans", "hi", some 5⟩ 5 rfl).1

/-- C4: every successful result of `further_validated_draft_dict`
satisfies the module's invariants: a non-empty topic only for stream-type
dicts; never a null byte in the topic; `recipient_id` set iff the
addressing resolved — in particular `none` with empty topic for a
private-type dict with empty `to` and for the empty-string type. -/
theorem c4_invariants (env : Env) (now : ℚ) (d : DraftDict) (r : ValidatedDraft)
    (h : further_validated_draft_dict env now d = Except.ok r) :
    (r.topic ≠ "" → d.type_ = "stream") ∧
    hasNullByte r.topic = false ∧
    (d.type_ = "stream" → r.recipient_id.isSome = true) ∧
    (d.type_ = "private" → d.to_ ≠ [] → r.recipient_id.isSome = true) ∧
    ((d.type_ = "private" ∧ d.to_ = []) ∨ d.type_ = "" →
      r.recipient_id = none ∧ r.topic = "") := by
  rcases further_ok_inv env now d r h with ⟨-, -, -, hbr⟩
  rcases hbr with ⟨hty, hnull, -, htop, -, hsome⟩ | ⟨hty, hpriv, hne, htop, -, hsome⟩ |
    ⟨hty, hnot, htop, hnone⟩
  · refine ⟨fun _ => hty, htop ▸ hnull, fun _ => hsome, fun _ _ => hsome, fun hc => ?_⟩
    exact absurd hty (by rcases hc with ⟨hp, -⟩ | hp <;> simp [hp])
  · refine ⟨fun hne2 => absurd htop hne2, by simp [htop, hasNullByte],
      fun hs => absurd hs hty, fun _ _ => hsome, fun hc => ?_⟩
    rcases hc with ⟨-, hemp⟩ | hemp
    · exact absurd hemp hne
    · exact absurd hpriv (by simp [hemp])
  · refine ⟨fun hne2 => absurd htop hne2, by simp [htop, hasNullByte],
      fun hs => absurd hs hty, fun hp hne => absurd ⟨hp, hne⟩ hnot,
      fun _ => ⟨hnone, htop⟩⟩

/-- C4 (witness): a private draft with empty `to` validates to a result
with `recipient_id = none` and empty topic. -/
theorem c4_witness :
    (⟨none, "", "hi", (5:ℚ)⟩ : ValidatedDraft).recipient_id = none ∧
    (⟨none, "", "hi", (5:ℚ)⟩ : ValidatedDraft).topic = "" :=
  (c4_invariants env2 0 ⟨"private", [], "", "hi", some 5⟩ ⟨none, "", "hi", 5⟩
    (by decide)).2.2.2.2 (Or.inl ⟨rfl, rfl⟩)

/-- Unfolding equation of the validation loop for a non-empty list. -/
theorem validateAll_cons (env : Env) (now : ℚ) (d : DraftDict) (rest : List DraftDict) :
    validateAll env now (d :: rest) =
      (match further_validated_draft_dict env now d with
       | Except.error e => Except.error e
       | Except.ok v =>
         match validateAll env now rest with
         | Except.error e => Except.error e
         | Except.ok vs => Except.ok (v :: vs)) := rfl

/-- If every dict before `d` validates and `d` fails with `e`, the whole
validation loop fails with `e` — the first error wins. -/
theorem validateAll_error_of (env : Env) (now : ℚ) (pre : List DraftDict)
    (d : DraftDict) (post : List DraftDict) (e : DraftError)
    (hpre : ∀ p ∈ pre, (further_validated_draft_dict env now p).isOk = true)
    (hd : further_validated_draft_dict env now d = Except.error e) :
    validateAll env now (pre ++ d :: post) = Except.error e := by
  induction pre with
  | nil => rw [List.nil_append, validateAll_cons, hd]
  | cons p ps ih =>
    have hp := hpre p (by simp)
    obtain ⟨v, hv⟩ : ∃ v, further_validated_draft_dict env now p = Except.ok v := by
      rcases hfv : further_validated_draft_dict env now p with e0 | v
      · rw [hfv] at hp; simp [Except.isOk, Except.toBool] at hp
      · exact ⟨v, rfl⟩
    have ih2 := ih fun q hq => hpre q (by simp [hq])
    rw [List.cons_append, validateAll_cons, hv, ih2]

/-- C3: `do_create_drafts` validates every dict before the single grouped
insert.  If some dict fails semantic validation while all before it
succeed, the whole batch fails with that first error — nothing persisted,
no events.  If all dicts validate, the batch is persisted by one grouped
insert and exactly one `drafts/add` event carries the full created rows in
creation order. -/
theorem c3_bulk_create_atomic (env : Env) (now : ℚ) (u : Int) (db : DB) :
    (∀ (pre : List DraftDict) (d : DraftDict) (post : List DraftDict) (e : DraftError),
      (∀ p ∈ pre, (further_validated_draft_dict env now p).isOk = true) →
      further_validated_draft_dict env now d = Except.error e →
      do_create_drafts env now u (pre ++ d :: post) db = Except.error e) ∧
    (∀ (draft_dicts : List DraftDict) (vs : List ValidatedDraft),
      validateAll env now draft_dicts = Except.ok vs →
      do_create_drafts env now u draft_dicts db =
        Except.ok ((bulk_create db u vs).1, [Event.add (bulk_create db u vs).2],
          (bulk_create db u vs).2)) := by
  constructor
  · intro pre d post e hpre hd
    unfold do_create_drafts
    rw [validateAll_error_of env now pre d post e hpre hd]
  · intro draft_dicts vs hv
    unfold do_create_drafts
    rw [hv]

/-- C3 (witness): the spec's scenario — a bulk create of two drafts where
the second has a negative timestamp — fails as a whole with
`InvalidTimestamp`. -/
theorem c3_witness :
    do_create_drafts env2 0 9
      [⟨"", [], "", "hi", some 5⟩, ⟨"", [], "", "hi", some (-1)⟩] ⟨[], 1⟩ =
      Except.error DraftError.invalidTimestamp :=
  (c3_bulk_create_atomic env2 0 9 ⟨[], 1⟩).1 [⟨"", [], "", "hi", some 5⟩]
    ⟨"", [], "", "hi", some (-1)⟩ [] DraftError.invalidTimestamp
    (by decide) (by decide)

/-- C10: `do_create_drafts` with an empty list does not fail: it persists
nothing, returns the empty list of created rows, and still emits one
`drafts/add` event whose drafts field is the empty list — the non-empty
precondition is not enforced. -/
theorem c10_empty_create (env : Env) (now : ℚ) (u : Int) (db : DB) :
    do_create_drafts env now u [] db = Except.ok (db, [Event.add []], []) := by
  have hdb : (bulk_create db u []).1 = db := by
    simp [bulk_create]
  have h0 : do_create_drafts env now u [] db =
      Except.ok ((bulk_create db u []).1, [Event.add (bulk_create db u []).2],
        (bulk_create db u []).2) := rfl
  rw [h0, hdb]
  simp [bulk_create]

/-- C6: edit and delete use the ownership-scoped lookup: they fail with
`draftNotFound` exactly when no draft with the given id owned by the
acting user exists (the same error whether the id is absent or the draft
is someone else's), and a successful delete makes a second delete of the
same id fail with `draftNotFound`. -/
theorem c6_scoped_lookup (env : Env) (now : ℚ) (db : DB) (i u : Int)
    (hw : Env.WF env) :
    (do_delete_draft db i u = Except.error DraftError.draftNotFound ↔
      lookupDraft db i u = none) ∧
    (∀ d : DraftDict, do_edit_draft env now i d u db =
        Except.error DraftError.draftNotFound ↔ lookupDraft db i u = none) ∧
    (∀ db' evs, do_delete_draft db i u = Except.ok (db', evs) →
      do_delete_draft db' i u = Except.error DraftError.draftNotFound) ∧
    ((∀ r ∈ db.drafts, ¬ (r.id = i ∧ r.user_profile_id = u)) →
      do_delete_draft db i u = Except.error DraftError.draftNotFound) := by
  have hdel : ∀ dr, lookupDraft db i u = some dr →
      do_delete_draft db i u =
        Except.ok (⟨db.drafts.filter fun r => !(r.id == dr.id), db.next_id⟩,
          [Event.remove dr.id]) := by
    intro dr hl
    unfold do_delete_draft
    rw [hl]
  have hlnone : (∀ r ∈ db.drafts, ¬ (r.id = i ∧ r.user_profile_id = u)) →
      lookupDraft db i u = none := by
    intro hall
    unfold lookupDraft
    rw [List.find?_eq_none]
    intro x hx
    simpa using hall x hx
  refine ⟨?_, ?_, ?_, ?_⟩
  · rcases hl : lookupDraft db i u with _ | dr
    · simp only [hl, iff_true]
      unfold do_delete_draft
      rw [hl]
    · rw [hdel dr hl]
      simp
  · intro d
    rcases hl : lookupDraft db i u with _ | dr
    · simp only [hl, iff_true]
      unfold do_edit_draft
      rw [hl]
    · unfold do_edit_draft
      rcases hf : further_validated_draft_dict env now d with e0 | v
      · have he := (further_error_kinds env now d e0 hw hf).1
        simp [hl, hf, he]
      · simp [hl, hf]
  · intro db' evs hok
    rcases hl : lookupDraft db i u with _ | dr
    · unfold do_delete_draft at hok
      rw [hl] at hok
      cases hok
    · rw [hdel dr hl] at hok
      simp only [Except.ok.injEq, Prod.mk.injEq] at hok
      have hdb' : db' = ⟨db.drafts.filter fun r => !(r.id == dr.id), db.next_id⟩ :=
        hok.1.symm
      have hid : dr.id = i := by
        have := List.find?_some hl
        simp only [Bool.and_eq_true, beq_iff_eq] at this
        exact this.1
      have hnone : lookupDraft db' i u = none := by
        unfold lookupDraft
        rw [List.find?_eq_none]
        intro x hx
        rw [hdb'] at hx
        simp only [List.mem_filter, Bool.not_eq_eq_eq_not, Bool.not_true,
          beq_eq_false_iff_ne] at hx
        simp only [Bool.and_eq_true, beq_iff_eq, not_and]
        intro hxi
        exact absurd (hxi.trans hid.symm) hx.2
      unfold do_delete_draft
      rw [hnone]
  · intro hall
    unfold do_delete_draft
    rw [hlnone hall]

/-- C6 (witness): deleting draft 1 (owned by user 9) as user 8 fails with
`draftNotFound`, revealing nothing about the draft's existence. -/
theorem c6_witness :
    do_delete_draft ⟨[⟨1, 9, none, "", "c", 0⟩], 2⟩ 1 8 =
      Except.error DraftError.draftNotFound :=
  (c6_scoped_lookup env2 0 ⟨[⟨1, 9, none, "", "c", 0⟩], 2⟩ 1 8 env2_wf).2.2.2
    (by decide)

/-- C7: the `draft_endpoint` guard.  When the acting user's
drafts-synchronization flag is false the request fails with the
permission-style `syncDisabled` error and the wrapped view is never
invoked (the outcome is the same for any two views); when the flag is
true the wrapped view is invoked with the original arguments and its
result is returned unchanged. -/
theorem c7_guard {α β : Type} (u : UserProfile) (a : α) :
    (u.enable_drafts_synchronization = false →
      ∀ v w : UserProfile → α → Except DraftError β,
        draft_endpoint v u a = Except.error DraftError.syncDisabled ∧
        draft_endpoint v u a = draft_endpoint w u a) ∧
    (u.enable_drafts_synchronization = true →
      ∀ v : UserProfile → α → Except DraftError β,
        draft_endpoint v u a = v u a) := by
  constructor
  · intro hf v w
    constructor <;> simp [draft_endpoint, hf]
  · intro ht v
    simp [draft_endpoint, ht]

/-- C7 (witness): with the flag off, a concrete view is never consulted
and the guard renders the `syncDisabled` error. -/
theorem c7_witness :
    draft_endpoint (fun _ _ => Except.ok (0 : Int)) ⟨1, false⟩ () =
      Except.error DraftError.syncDisabled :=
  ((c7_guard ⟨1, false⟩ ()).1 rfl (fun _ _ => Except.ok 0)
    (fun _ _ => Except.ok 0)).1

/-- C9: in `do_edit_draft` the ownership-scoped lookup precedes semantic
validation: for a missing or non-owned draft id the result is
`draftNotFound` whatever the supplied dict, and when the lookup succeeds
but validation fails, the operation fails with the validation error —
returning no new database state and no event. -/
theorem c9_lookup_before_validation (env : Env) (now : ℚ) (i u : Int) (db : DB) :
    (∀ d : DraftDict, lookupDraft db i u = none →
      do_edit_draft env now i d u db = Except.error DraftError.draftNotFound) ∧
    (∀ (d : DraftDict) (dr : Draft) (e : DraftError), lookupDraft db i u = some dr →
      further_validated_draft_dict env now d = Except.error e →
      do_edit_draft env now i d u db = Except.error e) := by
  constructor
  · intro d hl
    unfold do_edit_draft
    rw [hl]
  · intro d dr e hl hf
    unfold do_edit_draft
    rw [hl, hf]

/-- C9 (witness): editing the missing draft id 1 in an empty table with an
invalid dict (negative timestamp) fails with `draftNotFound`, not with the
validation error. -/
theorem c9_witness :
    do_edit_draft env2 0 1 ⟨"", [], "", "hi", some (-1)⟩ 9 ⟨[], 1⟩ =
      Except.error DraftError.draftNotFound :=
  (c9_lookup_before_validation env2 0 1 9 ⟨[], 1⟩).1 ⟨"", [], "", "hi", some (-1)⟩ rfl
